import Mathlib

/-!
Shallow embedding of the entra-id-api-tester core: configuration model and
validation (internal/config/config.go), token acquisition
(internal/auth/auth.go), the HTTP client (internal/client/client.go), and the
per-endpoint test procedure plus run aggregation (cmd/api-tester/main.go).
External effects (the Azure identity SDK, the HTTP transport, JSON
serialization of arbitrary Go values) are modelled as explicit environment
records of functions; the core logic is translated line by line from the Go
source.
-/

namespace ApiTester

/-- Opaque stand-in for a Go value of type map\x7bstring\x7dinterface, the
configured request body. Its JSON serialization is delegated to the
environment and can fail, as json.Marshal can on non-serializable values. -/
structure GoMap where
  tag : Nat
deriving DecidableEq, Repr

/-- internal/config/config.go: Endpoint struct. -/
structure Endpoint where
  name : String
  url : String
  method : String
  clientID : String
  clientSecret : String
  tenantID : String
  scope : String
  requestBody : Option GoMap
deriving DecidableEq, Repr

/-- internal/config/config.go: Config struct. -/
structure Config where
  endpoints : List Endpoint
deriving DecidableEq, Repr

/-- internal/config/config.go: the validMethods set used by Endpoint.Validate. -/
def validMethod (m : String) : Bool :=
  m == "GET" || m == "POST" || m == "PUT" || m == "PATCH" || m == "DELETE"

/-- internal/config/config.go: Endpoint.Validate. Returns the error message,
or none when the endpoint is valid. -/
def Endpoint.Validate (e : Endpoint) : Option String :=
  if e.name = "" then some "name is required"
  else if e.url = "" then some "url is required"
  else if e.method = "" then some "method is required"
  else if !(validMethod e.method) then
    some ("invalid HTTP method: " ++ e.method ++
      " (must be GET, POST, PUT, PATCH, or DELETE)")
  else if e.clientID = "" then some "clientId is required"
  else if e.clientSecret = "" then some "clientSecret is required"
  else if e.tenantID = "" then some "tenantId is required"
  else if e.scope = "" then some "scope is required"
  else none

/-- internal/config/config.go: the loop body of Config.Validate, carrying the
index used in the error message. -/
def validateEndpoints : Nat → List Endpoint → Option String
  | _, [] => none
  | i, e :: rest =>
    match e.Validate with
    | some err => some ("endpoint " ++ toString i ++ " (" ++ e.name ++ "): " ++ err)
    | none => validateEndpoints (i + 1) rest

/-- internal/config/config.go: Config.Validate. -/
def Config.Validate (c : Config) : Option String :=
  if c.endpoints.length = 0 then some "no endpoints defined in configuration"
  else validateEndpoints 0 c.endpoints

/-- internal/config/config.go: LoadConfig. File opening and JSON decoding are
external; their combined outcome is the argument. Validation is the part of
LoadConfig that belongs to the core. -/
def LoadConfig (parsed : Except String Config) : Except String Config :=
  match parsed with
  | .error e => .error e
  | .ok config =>
    match config.Validate with
    | some e => .error ("invalid configuration: " ++ e)
    | none => .ok config

/-- internal/auth/auth.go: outcome environment for the Azure identity SDK
calls made by EntraIDTokenProvider.GetAccessToken. newCredentialErr is the
failure of azidentity.NewClientSecretCredential on (tenantID, clientID,
clientSecret); getToken is credential.GetToken for the given scope, returning
the AccessToken.Token string or an error. -/
structure AzureEnv where
  newCredentialErr : String → String → String → Option String
  getToken : String → String → String → String → Except String String

/-- internal/auth/auth.go: EntraIDTokenProvider.GetAccessToken. Returns the
Go pair (token, error), with the error modelled as Option String. -/
def GetAccessToken (az : AzureEnv) (clientID clientSecret tenantID scope : String) :
    String × Option String :=
  match az.newCredentialErr tenantID clientID clientSecret with
  | some e => ("", some ("failed to create credential: " ++ e))
  | none =>
    match az.getToken tenantID clientID clientSecret scope with
    | .error e => ("", some ("failed to acquire token: " ++ e))
    | .ok t => if t = "" then ("", some "received empty token") else (t, none)

/-- internal/client/client.go: the outgoing http.Request as assembled by
CallAPI: method, URL, headers (set via Header.Set), and the optional
serialized body handed to NewRequestWithContext. -/
structure Request where
  method : String
  url : String
  headers : List (String × String)
  body : Option String
deriving DecidableEq, Repr

/-- net/http Header.Set: replaces any existing value for the key. -/
def setHeader (hs : List (String × String)) (k v : String) : List (String × String) :=
  hs.filter (fun p => !(p.1 == k)) ++ [(k, v)]

/-- Whether the assembled request carries the given header. -/
def Request.hasHeader (r : Request) (k : String) : Bool :=
  r.headers.any (fun p => p.1 == k)

/-- internal/client/client.go: the raw http.Response produced by
httpClient.Do, with the body still an unread stream. -/
structure HttpResponse where
  statusCode : Int
  headers : List (String × String)
  bodyStream : String
deriving DecidableEq, Repr

/-- internal/client/client.go: Response struct returned by CallAPI. -/
structure Response where
  headers : List (String × String)
  body : String
  statusCode : Int
deriving DecidableEq, Repr

/-- internal/client/client.go: Response.IsSuccessStatusCode. -/
def Response.IsSuccessStatusCode (r : Response) : Bool :=
  decide (200 ≤ r.statusCode) && decide (r.statusCode < 300)

/-- internal/client/client.go: environment for the external effects of
CallAPI: json.Marshal on the request body, the failure of
http.NewRequestWithContext on (method, url), httpClient.Do, and io.ReadAll
on the response body stream. -/
structure HttpEnv where
  marshal : GoMap → Except String String
  newRequestErr : String → String → Option String
  doRequest : Request → Except String HttpResponse
  readAll : String → Except String String

/-- internal/client/client.go lines 686-706 of CallAPI: prepare the body
reader, create the request, and set the headers; everything before the
request is handed to httpClient.Do. -/
def buildRequest (env : HttpEnv) (method url accessToken : String)
    (requestBody : Option GoMap) : Except String Request :=
  let marshalled : Except String (Option String) :=
    match requestBody, (method == "POST" || method == "PUT" || method == "PATCH") with
    | some rb, true =>
      match env.marshal rb with
      | .error e => .error ("failed to marshal request body: " ++ e)
      | .ok jsonBody => .ok (some jsonBody)
    | _, _ => .ok none
  match marshalled with
  | .error e => .error e
  | .ok bodyReader =>
    match env.newRequestErr method url with
    | some e => .error ("failed to create request: " ++ e)
    | none =>
      let req : Request := { method := method, url := url, headers := [], body := bodyReader }
      let req := { req with
        headers := setHeader req.headers "Authorization" ("Bearer " ++ accessToken) }
      let req :=
        if requestBody.isSome then
          { req with headers := setHeader req.headers "Content-Type" "application/json" }
        else req
      .ok req

/-- internal/client/client.go: APIClient.CallAPI. -/
def CallAPI (env : HttpEnv) (method url accessToken : String)
    (requestBody : Option GoMap) : Except String Response :=
  match buildRequest env method url accessToken requestBody with
  | .error e => .error e
  | .ok req =>
    match env.doRequest req with
    | .error e => .error ("failed to execute request: " ++ e)
    | .ok resp =>
      match env.readAll resp.bodyStream with
      | .error e => .error ("failed to read response body: " ++ e)
      | .ok body =>
        .ok { statusCode := resp.statusCode, body := body, headers := resp.headers }

/-- cmd/api-tester/main.go: TestResult. Duration is wall-clock time and is
not modelled; all other fields are. The Go zero value initializes every
field. -/
structure TestResult where
  endpointName : String := ""
  errorMessage : String := ""
  statusCode : Int := 0
  success : Bool := false
  authSuccess : Bool := false
  connectSuccess : Bool := false
  responseSuccess : Bool := false
deriving DecidableEq, Repr

/-- auth.TokenProvider: GetAccessToken(clientID, clientSecret, tenantID,
scope) returning (token, error). -/
abbrev TokenProvider := String → String → String → String → String × Option String

/-- cmd/api-tester/main.go: testEndpoint. The verbose flag only controls
printing and is dropped. -/
def testEndpoint (tokenProvider : TokenProvider) (apiEnv : HttpEnv)
    (endpoint : Endpoint) : TestResult :=
  let result : TestResult := { endpointName := endpoint.name }
  match tokenProvider endpoint.clientID endpoint.clientSecret endpoint.tenantID endpoint.scope with
  | (_, some err) => { result with errorMessage := "Authentication failed: " ++ err }
  | (token, none) =>
    let result := { result with authSuccess := true }
    match CallAPI apiEnv endpoint.method endpoint.url token endpoint.requestBody with
    | .error e => { result with errorMessage := "Request failed: " ++ e }
    | .ok response =>
      let result := { result with
        connectSuccess := true, statusCode := response.statusCode }
      if response.IsSuccessStatusCode then
        { result with responseSuccess := true, success := true }
      else
        { result with
          errorMessage := "Unexpected status code: " ++ toString response.statusCode }

/-- cmd/api-tester/main.go: the per-endpoint loop of main, which appends
testEndpoint results in declaration order. -/
def runTests (tokenProvider : TokenProvider) (apiEnv : HttpEnv) :
    List Endpoint → List TestResult
  | [] => []
  | ep :: rest => testEndpoint tokenProvider apiEnv ep :: runTests tokenProvider apiEnv rest

/-- cmd/api-tester/main.go: the counters computed by printSummary. -/
structure Summary where
  total : Nat
  passed : Nat
  authFailed : Nat
  connectFailed : Nat
  responseFailed : Nat
deriving DecidableEq, Repr

/-- cmd/api-tester/main.go: the loop body inside printSummary. -/
def summaryStep (acc : Summary) (result : TestResult) : Summary :=
  if result.success then { acc with passed := acc.passed + 1 }
  else if !result.authSuccess then { acc with authFailed := acc.authFailed + 1 }
  else if !result.connectSuccess then { acc with connectFailed := acc.connectFailed + 1 }
  else { acc with responseFailed := acc.responseFailed + 1 }

/-- cmd/api-tester/main.go: the count computation of printSummary: total is
len(results); the loop fills the other counters. Printing is dropped. -/
def printSummary (results : List TestResult) : Summary :=
  results.foldl summaryStep
    { total := results.length, passed := 0, authFailed := 0,
      connectFailed := 0, responseFailed := 0 }

/-- cmd/api-tester/main.go: hasFailures. -/
def hasFailures : List TestResult → Bool
  | [] => false
  | result :: rest => if !result.success then true else hasFailures rest

/-- cmd/api-tester/main.go: the control flow of main after flag parsing: config
load failure calls log.Fatalf (exit status 1, no endpoint tested); otherwise
every endpoint is tested and the exit status is 1 iff hasFailures. Returns
(exit status, collected results). -/
def mainRun (parsed : Except String Config) (tokenProvider : TokenProvider)
    (apiEnv : HttpEnv) : Nat × List TestResult :=
  match LoadConfig parsed with
  | .error _ => (1, [])
  | .ok cfg =>
    let results := runTests tokenProvider apiEnv cfg.endpoints
    (if hasFailures results then 1 else 0, results)

/-! ### Case lemmas for the three outcomes of testEndpoint -/

lemma testEndpoint_auth_fail (tp : TokenProvider) (env : HttpEnv) (ep : Endpoint)
    (t e : String)
    (h : tp ep.clientID ep.clientSecret ep.tenantID ep.scope = (t, some e)) :
    testEndpoint tp env ep =
      { endpointName := ep.name, errorMessage := "Authentication failed: " ++ e } := by
  unfold testEndpoint
  rw [h]

lemma testEndpoint_connect_fail (tp : TokenProvider) (env : HttpEnv) (ep : Endpoint)
    (t e : String)
    (h : tp ep.clientID ep.clientSecret ep.tenantID ep.scope = (t, none))
    (hc : CallAPI env ep.method ep.url t ep.requestBody = .error e) :
    testEndpoint tp env ep =
      { endpointName := ep.name, authSuccess := true,
        errorMessage := "Request failed: " ++ e } := by
  unfold testEndpoint
  rw [h]
  simp only [hc]

lemma testEndpoint_connect_ok (tp : TokenProvider) (env : HttpEnv) (ep : Endpoint)
    (t : String) (response : Response)
    (h : tp ep.clientID ep.clientSecret ep.tenantID ep.scope = (t, none))
    (hc : CallAPI env ep.method ep.url t ep.requestBody = .ok response) :
    testEndpoint tp env ep =
      if response.IsSuccessStatusCode then
        { endpointName := ep.name, authSuccess := true, connectSuccess := true,
          statusCode := response.statusCode, responseSuccess := true, success := true }
      else
        { endpointName := ep.name, authSuccess := true, connectSuccess := true,
          statusCode := response.statusCode,
          errorMessage := "Unexpected status code: " ++ toString response.statusCode } := by
  unfold testEndpoint
  rw [h]
  simp only [hc]

/-- C1: for every Test Outcome produced by testEndpoint, whatever the Token
Acquirer and API Invoker return, the stage flags form a strict prefix chain:
connectSuccess implies authSuccess and responseSuccess implies
connectSuccess. -/
theorem testEndpoint_stage_flags_monotone (tp : TokenProvider) (env : HttpEnv)
    (ep : Endpoint) :
    ((!(testEndpoint tp env ep).connectSuccess || (testEndpoint tp env ep).authSuccess) &&
      (!(testEndpoint tp env ep).responseSuccess ||
        (testEndpoint tp env ep).connectSuccess)) = true := by
  rcases htp : tp ep.clientID ep.clientSecret ep.tenantID ep.scope with ⟨t, err⟩
  cases err with
  | some e => rw [testEndpoint_auth_fail tp env ep t e htp]; rfl
  | none =>
    cases hc : CallAPI env ep.method ep.url t ep.requestBody with
    | error e => rw [testEndpoint_connect_fail tp env ep t e htp hc]; rfl
    | ok response =>
      rw [testEndpoint_connect_ok tp env ep t response htp hc]
      cases hs : response.IsSuccessStatusCode <;> simp [hs]

/-! ### Summary counting lemmas -/

lemma summaryStep_fields (acc : Summary) (r : TestResult) :
    (summaryStep acc r).total = acc.total ∧
    (summaryStep acc r).passed = acc.passed + (if r.success then 1 else 0) ∧
    (summaryStep acc r).authFailed
      = acc.authFailed + (if !r.success && !r.authSuccess then 1 else 0) ∧
    (summaryStep acc r).connectFailed
      = acc.connectFailed
        + (if !r.success && r.authSuccess && !r.connectSuccess then 1 else 0) ∧
    (summaryStep acc r).responseFailed
      = acc.responseFailed
        + (if !r.success && r.authSuccess && r.connectSuccess then 1 else 0) := by
  unfold summaryStep
  cases hs : r.success <;> cases ha : r.authSuccess <;> cases hc : r.connectSuccess <;>
    simp [hs, ha, hc]

lemma foldl_summaryStep (results : List TestResult) (acc : Summary) :
    (results.foldl summaryStep acc).total = acc.total ∧
    (results.foldl summaryStep acc).passed
      = acc.passed + results.countP (fun r => r.success) ∧
    (results.foldl summaryStep acc).authFailed
      = acc.authFailed + results.countP (fun r => !r.success && !r.authSuccess) ∧
    (results.foldl summaryStep acc).connectFailed
      = acc.connectFailed
        + results.countP (fun r => !r.success && r.authSuccess && !r.connectSuccess) ∧
    (results.foldl summaryStep acc).responseFailed
      = acc.responseFailed
        + results.countP (fun r => !r.success && r.authSuccess && r.connectSuccess) := by
  induction results generalizing acc with
  | nil => simp
  | cons r rest ih =>
    simp only [List.foldl_cons, List.countP_cons]
    obtain ⟨h1, h2, h3, h4, h5⟩ := ih (summaryStep acc r)
    obtain ⟨g1, g2, g3, g4, g5⟩ := summaryStep_fields acc r
    refine ⟨by rw [h1, g1], by rw [h2, g2]; omega, by rw [h3, g3]; omega,
      by rw [h4, g4]; omega, by rw [h5, g5]; omega⟩

lemma length_eq_sum_counts (results : List TestResult) :
    results.length
      = results.countP (fun r => r.success)
        + results.countP (fun r => !r.success && !r.authSuccess)
        + results.countP (fun r => !r.success && r.authSuccess && !r.connectSuccess)
        + results.countP (fun r => !r.success && r.authSuccess && r.connectSuccess) := by
  induction results with
  | nil => simp
  | cons r rest ih =>
    simp only [List.length_cons, List.countP_cons]
    cases hs : r.success <;> cases ha : r.authSuccess <;>
      cases hc : r.connectSuccess <;> simp [hs, ha, hc] <;> omega

lemma printSummary_total_eq_length (results : List TestResult) :
    (printSummary results).total = results.length := by
  unfold printSummary
  exact (foldl_summaryStep results _).1

/-- C2: printSummary counts passed once per outcome with success, attributes
each failed outcome to exactly one bucket by earliest-failing-stage
precedence, and total equals passed plus the sum of the three buckets. -/
theorem printSummary_counts (results : List TestResult) :
    (printSummary results).total = results.length ∧
    (printSummary results).passed = results.countP (fun r => r.success) ∧
    (printSummary results).authFailed
      = results.countP (fun r => !r.success && !r.authSuccess) ∧
    (printSummary results).connectFailed
      = results.countP (fun r => !r.success && r.authSuccess && !r.connectSuccess) ∧
    (printSummary results).responseFailed
      = results.countP (fun r => !r.success && r.authSuccess && r.connectSuccess) ∧
    (printSummary results).total
      = (printSummary results).passed + (printSummary results).authFailed
        + (printSummary results).connectFailed + (printSummary results).responseFailed := by
  obtain ⟨h1, h2, h3, h4, h5⟩ :=
    foldl_summaryStep results
      { total := results.length, passed := 0, authFailed := 0,
        connectFailed := 0, responseFailed := 0 }
  unfold printSummary
  refine ⟨h1, by simpa using h2, by simpa using h3, by simpa using h4,
    by simpa using h5, ?_⟩
  rw [h1, h2, h3, h4, h5]
  simpa using length_eq_sum_counts results

/-- C3: the main loop tests each endpoint once, in declaration order,
producing exactly one Test Outcome per endpoint in the same order; a failing
endpoint never prevents a later endpoint from being tested, since every
position of the output is the testEndpoint value of the same position of the
input. -/
theorem runTests_order_and_length (tp : TokenProvider) (env : HttpEnv)
    (eps : List Endpoint) :
    runTests tp env eps = eps.map (fun ep => testEndpoint tp env ep) ∧
    (runTests tp env eps).length = eps.length ∧
    ∀ i : Nat, (runTests tp env eps)[i]?
      = (eps[i]?).map (fun ep => testEndpoint tp env ep) := by
  have hmap : runTests tp env eps = eps.map (fun ep => testEndpoint tp env ep) := by
    induction eps with
    | nil => rfl
    | cons ep rest ih => simp [runTests, ih]
  refine ⟨hmap, by rw [hmap]; simp, ?_⟩
  intro i
  rw [hmap]
  simp

/-- C4: responseSuccess holds exactly when the HTTP exchange completed and
the status code lies in the interval from 200 inclusive to 300 exclusive;
199 and 300 classify as failure, 200 and 299 as success. -/
theorem responseSuccess_iff_status_2xx (tp : TokenProvider) (env : HttpEnv)
    (ep : Endpoint) :
    ((testEndpoint tp env ep).responseSuccess
      = ((testEndpoint tp env ep).connectSuccess &&
          decide (200 ≤ (testEndpoint tp env ep).statusCode) &&
          decide ((testEndpoint tp env ep).statusCode < 300))) ∧
    Response.IsSuccessStatusCode { headers := [], body := "", statusCode := 199 } = false ∧
    Response.IsSuccessStatusCode { headers := [], body := "", statusCode := 200 } = true ∧
    Response.IsSuccessStatusCode { headers := [], body := "", statusCode := 299 } = true ∧
    Response.IsSuccessStatusCode { headers := [], body := "", statusCode := 300 } = false := by
  refine ⟨?_, by decide, by decide, by decide, by decide⟩
  rcases htp : tp ep.clientID ep.clientSecret ep.tenantID ep.scope with ⟨t, err⟩
  cases err with
  | some e => rw [testEndpoint_auth_fail tp env ep t e htp]; simp
  | none =>
    cases hc : CallAPI env ep.method ep.url t ep.requestBody with
    | error e => rw [testEndpoint_connect_fail tp env ep t e htp hc]; simp
    | ok response =>
      rw [testEndpoint_connect_ok tp env ep t response htp hc]
      cases hs : response.IsSuccessStatusCode with
      | true =>
        simp only [Response.IsSuccessStatusCode, Bool.and_eq_true] at hs
        simp [hs.1, hs.2]
      | false =>
        simp only [Response.IsSuccessStatusCode] at hs
        simp [hs]

/-! ### Concrete fixtures used by the witness theorems -/

/-- An environment in which every external call succeeds: marshalling yields
the JSON text null, request creation succeeds, the transport returns 200. -/
def envOk : HttpEnv :=
  { marshal := fun _ => .ok "null"
    newRequestErr := fun _ _ => none
    doRequest := fun _ => .ok { statusCode := 200, headers := [], bodyStream := "" }
    readAll := fun s => .ok s }

/-- Like envOk but JSON serialization of the request body fails. -/
def envMarshalFail : HttpEnv :=
  { envOk with marshal := fun _ => .error "unsupported type" }

/-- A valid GET endpoint definition with no request body. -/
def epGet : Endpoint :=
  { name := "ep1", url := "https://example.com", method := "GET",
    clientID := "id", clientSecret := "secret", tenantID := "tenant",
    scope := "api-scope", requestBody := none }

/-- The same endpoint as a POST with a configured request body. -/
def epPost : Endpoint :=
  { epGet with method := "POST", requestBody := some ⟨0⟩ }

/-- A token provider that always succeeds with a fixed token. -/
def tpOk : TokenProvider := fun _ _ _ _ => ("tok", none)

/-- An Azure environment whose credential is created fine but whose token
request comes back with an empty token string and no error. -/
def azEmptyToken : AzureEnv :=
  { newCredentialErr := fun _ _ _ => none
    getToken := fun _ _ _ _ => .ok "" }

/-- A configuration holding the single valid endpoint epGet. -/
def cfg1 : Config := { endpoints := [epGet] }

/-! ### Auth stage lemmas -/

lemma testEndpoint_authSuccess_of_token (tp : TokenProvider) (env : HttpEnv)
    (ep : Endpoint) (t : String)
    (h : tp ep.clientID ep.clientSecret ep.tenantID ep.scope = (t, none)) :
    (testEndpoint tp env ep).authSuccess = true := by
  cases hc : CallAPI env ep.method ep.url t ep.requestBody with
  | error e => rw [testEndpoint_connect_fail tp env ep t e h hc]
  | ok response =>
    rw [testEndpoint_connect_ok tp env ep t response h hc]
    cases hs : response.IsSuccessStatusCode <;> simp [hs]

/-- C5: with the Entra ID token provider of the program, authSuccess is true
iff credential creation succeeded and a non-empty token was returned; in
particular an empty token returned with no error is a Stage-1 failure that
stops the test with an error message naming the authentication stage. -/
theorem auth_empty_token_failure (az : AzureEnv) (env : HttpEnv) (ep : Endpoint) :
    ((testEndpoint (GetAccessToken az) env ep).authSuccess = true ↔
      az.newCredentialErr ep.tenantID ep.clientID ep.clientSecret = none ∧
        ∃ t, az.getToken ep.tenantID ep.clientID ep.clientSecret ep.scope = .ok t ∧
          t ≠ "") ∧
    (az.newCredentialErr ep.tenantID ep.clientID ep.clientSecret = none →
      az.getToken ep.tenantID ep.clientID ep.clientSecret ep.scope = .ok "" →
      testEndpoint (GetAccessToken az) env ep =
        { endpointName := ep.name,
          errorMessage := "Authentication failed: received empty token" }) := by
  constructor
  · cases hcred : az.newCredentialErr ep.tenantID ep.clientID ep.clientSecret with
    | some e =>
      have hga : GetAccessToken az ep.clientID ep.clientSecret ep.tenantID ep.scope
          = ("", some ("failed to create credential: " ++ e)) := by
        unfold GetAccessToken; rw [hcred]
      rw [testEndpoint_auth_fail _ env ep _ _ hga]
      simp [hcred]
    | none =>
      cases htok : az.getToken ep.tenantID ep.clientID ep.clientSecret ep.scope with
      | error e =>
        have hga : GetAccessToken az ep.clientID ep.clientSecret ep.tenantID ep.scope
            = ("", some ("failed to acquire token: " ++ e)) := by
          unfold GetAccessToken; rw [hcred, htok]
        rw [testEndpoint_auth_fail _ env ep _ _ hga]
        simp [htok]
      | ok t =>
        by_cases ht : t = ""
        · subst ht
          have hga : GetAccessToken az ep.clientID ep.clientSecret ep.tenantID ep.scope
              = ("", some "received empty token") := by
            unfold GetAccessToken; rw [hcred, htok]; rfl
          rw [testEndpoint_auth_fail _ env ep _ _ hga]
          simp [htok]
        · have hga : GetAccessToken az ep.clientID ep.clientSecret ep.tenantID ep.scope
              = (t, none) := by
            unfold GetAccessToken; rw [hcred, htok]; simp [ht]
          refine iff_of_true (testEndpoint_authSuccess_of_token _ env ep t hga)
            ⟨rfl, t, rfl, ht⟩
  · intro h1 h2
    have hga : GetAccessToken az ep.clientID ep.clientSecret ep.tenantID ep.scope
        = ("", some "received empty token") := by
      unfold GetAccessToken; rw [h1, h2]; rfl
    exact testEndpoint_auth_fail _ env ep _ _ hga

/-- Witness for C5 at the concrete empty-token Azure environment. -/
theorem auth_empty_token_failure_witness :
    testEndpoint (GetAccessToken azEmptyToken) envOk epGet =
      { endpointName := "ep1",
        errorMessage := "Authentication failed: received empty token" } :=
  (auth_empty_token_failure azEmptyToken envOk epGet).2 rfl rfl

/-- C6 (bug evidence): a GET call with a configured non-nil request body
produces an outgoing request that carries Content-Type: application/json even
though it carries no body. -/
theorem contentType_set_for_get_with_body :
    ∃ req, buildRequest envOk "GET" "https://example.com" "tok" (some ⟨0⟩)
        = .ok req ∧ req.hasHeader "Content-Type" = true ∧ req.body = none := by
  refine ⟨_, rfl, by decide, rfl⟩

/-- C7: a configured non-nil request body is serialized and attached for
POST, PUT and PATCH, and silently omitted, with no error raised, for GET and
DELETE. -/
theorem requestBody_attachment (env : HttpEnv) (m u tok : String) (rb : GoMap)
    (s : String) (hreq : env.newRequestErr m u = none) :
    ((m = "POST" ∨ m = "PUT" ∨ m = "PATCH") → env.marshal rb = .ok s →
      ∃ req, buildRequest env m u tok (some rb) = .ok req ∧ req.body = some s) ∧
    ((m = "GET" ∨ m = "DELETE") →
      ∃ req, buildRequest env m u tok (some rb) = .ok req ∧ req.body = none) := by
  constructor
  · intro hm hmar
    have hcond : (m == "POST" || m == "PUT" || m == "PATCH") = true := by
      rcases hm with h | h | h <;> subst h <;> decide
    simp only [buildRequest, hcond, hmar, hreq]
    exact ⟨_, rfl, rfl⟩
  · intro hm
    have hcond : (m == "POST" || m == "PUT" || m == "PATCH") = false := by
      rcases hm with h | h <;> subst h <;> decide
    simp only [buildRequest, hcond, hreq]
    exact ⟨_, rfl, rfl⟩

/-- Witness for C7: the body is attached for a POST, and a GET raises no
error and sends no body even when serialization of the configured body would
fail. -/
theorem requestBody_attachment_witness :
    (∃ req, buildRequest envOk "POST" "https://example.com" "tok" (some ⟨0⟩)
        = .ok req ∧ req.body = some "null") ∧
    (∃ req, buildRequest envMarshalFail "GET" "https://example.com" "tok" (some ⟨0⟩)
        = .ok req ∧ req.body = none) :=
  ⟨(requestBody_attachment envOk "POST" "https://example.com" "tok" ⟨0⟩ "null"
      rfl).1 (Or.inl rfl) rfl,
   (requestBody_attachment envMarshalFail "GET" "https://example.com" "tok" ⟨0⟩
      "null" rfl).2 (Or.inl rfl)⟩

/-- C8: on a POST, PUT or PATCH endpoint whose request body fails JSON
serialization, testEndpoint reports a connect-stage failure: authSuccess
true, connectSuccess false, statusCode 0, and an error message of the form
Request failed: failed to marshal request body: cause. The outcome does not
depend on the transport, which is never consulted. -/
theorem marshal_failure_connect_stage (tp : TokenProvider) (env : HttpEnv)
    (ep : Endpoint) (rb : GoMap) (token e : String)
    (hauth : tp ep.clientID ep.clientSecret ep.tenantID ep.scope = (token, none))
    (hm : ep.method = "POST" ∨ ep.method = "PUT" ∨ ep.method = "PATCH")
    (hrb : ep.requestBody = some rb)
    (hmar : env.marshal rb = .error e) :
    testEndpoint tp env ep =
      { endpointName := ep.name,
        errorMessage := "Request failed: " ++ ("failed to marshal request body: " ++ e),
        authSuccess := true } := by
  have hcond : (ep.method == "POST" || ep.method == "PUT" || ep.method == "PATCH")
      = true := by
    rcases hm with h | h | h <;> rw [h] <;> decide
  have hc : CallAPI env ep.method ep.url token ep.requestBody
      = .error ("failed to marshal request body: " ++ e) := by
    simp only [CallAPI, buildRequest, hrb, hcond, hmar]
  exact testEndpoint_connect_fail tp env ep token _ hauth hc

/-- Witness for C8 at a concrete failing serialization. -/
theorem marshal_failure_connect_stage_witness :
    testEndpoint tpOk envMarshalFail epPost =
      { endpointName := "ep1",
        errorMessage :=
          "Request failed: " ++ ("failed to marshal request body: " ++ "unsupported type"),
        authSuccess := true } ∧
    ∃ rest, (testEndpoint tpOk envMarshalFail epPost).errorMessage
      = "Request failed: " ++ rest := by
  have h := marshal_failure_connect_stage tpOk envMarshalFail epPost ⟨0⟩ "tok"
    "unsupported type" rfl (Or.inl rfl) rfl rfl
  exact ⟨h, "failed to marshal request body: " ++ "unsupported type", by rw [h]⟩

/-! ### Exit status -/

lemma hasFailures_eq_not_all (results : List TestResult) :
    hasFailures results = !results.all (fun r => r.success) := by
  induction results with
  | nil => rfl
  | cons r rest ih => cases hs : r.success <;> simp [hasFailures, hs, ih]

lemma mainRun_error (parsed : Except String Config) (tp : TokenProvider)
    (env : HttpEnv) (e : String) (hl : LoadConfig parsed = .error e) :
    mainRun parsed tp env = (1, []) := by
  unfold mainRun; rw [hl]

lemma mainRun_ok (parsed : Except String Config) (tp : TokenProvider)
    (env : HttpEnv) (cfg : Config) (hl : LoadConfig parsed = .ok cfg) :
    mainRun parsed tp env =
      (if hasFailures (runTests tp env cfg.endpoints) then 1 else 0,
        runTests tp env cfg.endpoints) := by
  unfold mainRun; rw [hl]

/-- C9: the process exit status is 0 exactly when configuration loading
succeeded and every Test Outcome has success true; it is 1 when some outcome
failed, and 1 with no outcomes produced when configuration loading fails. -/
theorem exit_code_spec (parsed : Except String Config) (tp : TokenProvider)
    (env : HttpEnv) :
    ((mainRun parsed tp env).1 = 0 ∨ (mainRun parsed tp env).1 = 1) ∧
    ((mainRun parsed tp env).1 = 0 ↔
      ∃ cfg, LoadConfig parsed = .ok cfg ∧
        (runTests tp env cfg.endpoints).all (fun r => r.success) = true) ∧
    (∀ e, LoadConfig parsed = .error e → mainRun parsed tp env = (1, [])) := by
  cases hl : LoadConfig parsed with
  | error e =>
    rw [mainRun_error parsed tp env e hl]
    refine ⟨Or.inr rfl, ?_, fun e2 _ => rfl⟩
    refine iff_of_false (by decide) ?_
    rintro ⟨cfg, hc, _⟩
    exact absurd hc (by simp)
  | ok cfg =>
    have hall := hasFailures_eq_not_all (runTests tp env cfg.endpoints)
    rw [mainRun_ok parsed tp env cfg hl]
    cases hf : hasFailures (runTests tp env cfg.endpoints) with
    | false =>
      rw [hf] at hall
      have hA : (runTests tp env cfg.endpoints).all (fun r => r.success) = true := by
        cases h2 : (runTests tp env cfg.endpoints).all (fun r => r.success) with
        | false => rw [h2] at hall; exact absurd hall.symm (by decide)
        | true => rfl
      exact ⟨Or.inl rfl, iff_of_true rfl ⟨cfg, rfl, hA⟩,
        fun e2 he2 => absurd he2 (by simp)⟩
    | true =>
      rw [hf] at hall
      have hA : (runTests tp env cfg.endpoints).all (fun r => r.success) = false := by
        cases h2 : (runTests tp env cfg.endpoints).all (fun r => r.success) with
        | true => rw [h2] at hall; exact absurd hall.symm (by decide)
        | false => rfl
      refine ⟨Or.inr rfl, ?_, fun e2 he2 => absurd he2 (by simp)⟩
      refine iff_of_false (by simp) ?_
      rintro ⟨cfg2, hc2, hall2⟩
      injection hc2 with hcc
      subst hcc
      rw [hA] at hall2
      exact absurd hall2 (by decide)

/-- Witness for C9: a failed configuration load exits 1 with no outcomes. -/
theorem exit_code_spec_witness :
    mainRun (.error "file not found") tpOk envOk = (1, []) :=
  (exit_code_spec (.error "file not found") tpOk envOk).2.2 "file not found" rfl

/-! ### Summary divisor -/

lemma runTests_eq_map (tp : TokenProvider) (env : HttpEnv) (eps : List Endpoint) :
    runTests tp env eps = eps.map (fun ep => testEndpoint tp env ep) := by
  induction eps with
  | nil => rfl
  | cons ep rest ih => simp [runTests, ih]

/-- C10: when configuration validation succeeds the endpoint list is
non-empty, so the summary total, the divisor of the percentage computations
in printSummary, is nonzero. -/
theorem summary_total_pos (c : Config) (tp : TokenProvider) (env : HttpEnv)
    (hv : c.Validate = none) :
    0 < (printSummary (runTests tp env c.endpoints)).total := by
  rw [printSummary_total_eq_length, runTests_eq_map, List.length_map]
  by_cases h0 : c.endpoints.length = 0
  · unfold Config.Validate at hv
    rw [if_pos h0] at hv
    exact absurd hv (by simp)
  · omega

/-- Witness for C10 at a concrete validated one-endpoint configuration. -/
theorem summary_total_pos_witness :
    0 < (printSummary (runTests tpOk envOk cfg1.endpoints)).total :=
  summary_total_pos cfg1 tpOk envOk (by decide)

end ApiTester
